import Mathlib

/-!
Verification of the World Cup 2026 prediction workflow backend.

Shallow embedding of the Python sources in `backend/` (memory.py,
workflow_engine.py, tools.py, wikipedia.py).  Machine reals from the
source are modelled as exact rationals (`ℚ`); Python's `round(x, 2)`
(round-half-to-even on the nearest double) is modelled as
round-half-to-even on the exact rational — no theorem below depends on
a half-way case.  Python dicts whose key sets matter are modelled as
association lists, other records as structures.  `random.randint` /
`random.uniform` draws are modelled by threading an explicit stream of
generator values.
-/

set_option autoImplicit false

namespace WorldCup

/-- JSON-style values: the payloads moved between the Python functions
(`json.load` results, tool outputs, cache files). -/
inductive JVal where
  | null
  | num (q : ℚ)
  | str (s : String)
  | arr (elems : List JVal)
  | obj (fields : List (String × JVal))

mutual

def jvalDecEq : (a b : JVal) → Decidable (a = b)
  | .null, .null => .isTrue rfl
  | .num a, .num b =>
    match decEq a b with
    | .isTrue h => .isTrue (by rw [h])
    | .isFalse h => .isFalse (by intro e; cases e; exact h rfl)
  | .str a, .str b =>
    match decEq a b with
    | .isTrue h => .isTrue (by rw [h])
    | .isFalse h => .isFalse (by intro e; cases e; exact h rfl)
  | .arr a, .arr b =>
    match jarrDecEq a b with
    | .isTrue h => .isTrue (by rw [h])
    | .isFalse h => .isFalse (by intro e; cases e; exact h rfl)
  | .obj a, .obj b =>
    match jobjDecEq a b with
    | .isTrue h => .isTrue (by rw [h])
    | .isFalse h => .isFalse (by intro e; cases e; exact h rfl)
  | .null, .num _ => .isFalse nofun
  | .null, .str _ => .isFalse nofun
  | .null, .arr _ => .isFalse nofun
  | .null, .obj _ => .isFalse nofun
  | .num _, .null => .isFalse nofun
  | .num _, .str _ => .isFalse nofun
  | .num _, .arr _ => .isFalse nofun
  | .num _, .obj _ => .isFalse nofun
  | .str _, .null => .isFalse nofun
  | .str _, .num _ => .isFalse nofun
  | .str _, .arr _ => .isFalse nofun
  | .str _, .obj _ => .isFalse nofun
  | .arr _, .null => .isFalse nofun
  | .arr _, .num _ => .isFalse nofun
  | .arr _, .str _ => .isFalse nofun
  | .arr _, .obj _ => .isFalse nofun
  | .obj _, .null => .isFalse nofun
  | .obj _, .num _ => .isFalse nofun
  | .obj _, .str _ => .isFalse nofun
  | .obj _, .arr _ => .isFalse nofun

def jarrDecEq : (a b : List JVal) → Decidable (a = b)
  | [], [] => .isTrue rfl
  | [], _ :: _ => .isFalse nofun
  | _ :: _, [] => .isFalse nofun
  | a :: as, b :: bs =>
    match jvalDecEq a b with
    | .isFalse h => .isFalse (by intro e; cases e; exact h rfl)
    | .isTrue h1 =>
      match jarrDecEq as bs with
      | .isTrue h2 => .isTrue (by rw [h1, h2])
      | .isFalse h => .isFalse (by intro e; cases e; exact h rfl)

def jobjDecEq : (a b : List (String × JVal)) → Decidable (a = b)
  | [], [] => .isTrue rfl
  | [], _ :: _ => .isFalse nofun
  | _ :: _, [] => .isFalse nofun
  | (k1, v1) :: as, (k2, v2) :: bs =>
    match decEq k1 k2 with
    | .isFalse h => .isFalse (by intro e; cases e; exact h rfl)
    | .isTrue hk =>
      match jvalDecEq v1 v2 with
      | .isFalse h => .isFalse (by intro e; cases e; exact h rfl)
      | .isTrue hv =>
        match jobjDecEq as bs with
        | .isTrue ht => .isTrue (by rw [hk, hv, ht])
        | .isFalse h => .isFalse (by intro e; cases e; exact h rfl)

end

instance : DecidableEq JVal := jvalDecEq

/-- Python truthiness (`bool(v)`) on the modelled values: `None`, `0`,
`""`, `[]` and `{}` are falsy. -/
def pyTruthy : JVal → Bool
  | .null => false
  | .num q => q != 0
  | .str s => s != ""
  | .arr l => !l.isEmpty
  | .obj l => !l.isEmpty

/-! ### Python string helpers used by the sources -/

/-- Prefix test on character lists. -/
def charsStartWith : List Char → List Char → Bool
  | [], _ => true
  | _ :: _, [] => false
  | a :: as, b :: bs => a == b && charsStartWith as bs

/-- Substring test on character lists (Python's `needle in hay`). -/
def charsContains (needle : List Char) : List Char → Bool
  | [] => needle.isEmpty
  | c :: rest => charsStartWith needle (c :: rest) || charsContains needle rest

/-- Python's `needle in hay` for strings. -/
def strContains (hay needle : String) : Bool :=
  charsContains needle.data hay.data

/-- Python's `str.lower()` (ASCII case folding, which covers every goal
keyword and every string literal in the sources). -/
def lowerStr (s : String) : String :=
  ⟨s.data.map Char.toLower⟩

/-- Python's `str.strip()`: drop leading and trailing whitespace. -/
def stripStr (s : String) : String :=
  ⟨((s.data.dropWhile Char.isWhitespace).reverse.dropWhile Char.isWhitespace).reverse⟩

/-! ### memory.py -/

/-- The method names defined on `class Memory` in `backend/memory.py`
(its complete class body). -/
def memoryMethods : List String :=
  ["__init__", "_load_memory", "_create_empty_memory", "initialize_workflow",
   "update_step", "set_final_output", "set_error", "get_current_state",
   "get_execution_log", "get_step_count", "is_complete", "reset",
   "_save_memory", "export_memory"]

/-- Model of `Memory._create_empty_memory`: the empty workflow record. -/
def createEmptyMemory : List (String × JVal) :=
  [("goal", .str ""), ("plan", .arr []), ("execution_log", .arr []),
   ("final_output", .obj []), ("workflow_status", .str "idle"),
   ("created_at", .null), ("updated_at", .null)]

/-! #### A small heap, to talk about references versus copies.

`Memory.get_current_state` returns `self.memory` itself.  To state
whether that is a live reference or a copy we model the Python object
store: a heap maps addresses to dict contents, and the `Memory` object
holds the address of its record. -/

/-- Heap of Python dict objects: address ↦ field list. -/
structure Heap where
  store : List (ℕ × List (String × JVal))
  next : ℕ
  deriving DecidableEq

/-- Read the dict at an address (missing address reads as empty). -/
def heapGet (h : Heap) (r : ℕ) : List (String × JVal) :=
  (h.store.lookup r).getD []

/-- Overwrite the dict at an address. -/
def heapSet (h : Heap) (r : ℕ) (d : List (String × JVal)) : Heap :=
  ⟨(r, d) :: h.store, h.next⟩

/-- Python dict item assignment `d[k] = v`: replace in place, append if new. -/
def dictSet (d : List (String × JVal)) (k : String) (v : JVal) : List (String × JVal) :=
  match d with
  | [] => [(k, v)]
  | (k0, v0) :: rest => if k0 = k then (k0, v) :: rest else (k0, v0) :: dictSet rest k v

/-- The `Memory` object: it holds a reference to its workflow record
(`self.memory`). -/
structure MemoryObj where
  memoryRef : ℕ
  deriving DecidableEq

/-- Model of `Memory.get_current_state` (memory.py lines 85–87): `return self.memory`
— it hands back the very reference the engine mutates, performing no copy. -/
def getCurrentState (m : MemoryObj) : ℕ :=
  m.memoryRef

/-- Modelled from the spec: "`get_state()` returns a full copy, never a live
reference".  A copying variant would allocate a fresh address holding the
same contents; `memory.py` contains no such code. -/
def getStateSpecCopy (h : Heap) (m : MemoryObj) : ℕ × Heap :=
  (h.next, ⟨(h.next, heapGet h m.memoryRef) :: h.store, h.next + 1⟩)

/-! ### workflow_engine.py -/

/-- Model of `WorkflowEngine._goal_type` (workflow_engine.py lines 28–40): ordered
keyword rules on the stripped, lower-cased goal. -/
def goal_type (goal : String) : String :=
  let g := lowerStr (stripStr goal)
  if strContains g "winner" && (strContains g "world cup" || strContains g "2026") then
    "team_winner"
  else if strContains g "golden ball" then "golden_ball"
  else if strContains g "golden boot" then "golden_boot"
  else if strContains g "golden glove" then "golden_glove"
  else if strContains g "young player" then "young_player"
  else "team_winner"

/-- The step template chosen by `WorkflowEngine.plan` (lines 48–104) before
truncation: one fixed list per goal type. -/
def planSteps (goal : String) : List String :=
  let goalType := goal_type goal
  if goalType = "team_winner" then
    ["Fetch current FIFA rankings data",
     "Fetch historical World Cup performance data",
     "Analyze team form and recent match results",
     "Calculate predictive scores using weighted factors (FIFA 25%, Historical 20%, Form 25%, Squad 20%, Home 10%)",
     "Generate top 5 predictions with probabilities",
     "Create visualization data",
     "Generate report",
     "Save results to memory and file",
     "Format output for display"]
  else if goalType = "golden_ball" then
    ["Fetch forward statistics",
     "Fetch midfielder statistics",
     "Fetch historical Golden Ball winners",
     "Calculate player scores (goals + assists + ratings + team success)",
     "Rank top 5 candidates with probabilities",
     "Create visualization data",
     "Generate report",
     "Save results to file",
     "Format output for display"]
  else if goalType = "golden_boot" then
    ["Fetch forward and attacking player statistics",
     "Fetch historical Golden Boot / top scorer data",
     "Calculate scoring-based scores (goals + form + team style)",
     "Rank top 5 candidates with probabilities",
     "Create visualization data",
     "Generate report",
     "Save results to file",
     "Format output for display"]
  else if goalType = "golden_glove" then
    ["Fetch goalkeeper statistics",
     "Fetch historical Golden Glove winners",
     "Calculate keeper scores (clean sheets + saves + defensive strength)",
     "Rank top 5 candidates with probabilities",
     "Create visualization data",
     "Generate report",
     "Save results to file",
     "Format output for display"]
  else
    ["Fetch young player (U21) statistics",
     "Fetch historical Young Player Award winners",
     "Calculate scores (age <21 + performance + potential)",
     "Rank top 5 candidates with probabilities",
     "Create visualization data",
     "Generate report",
     "Save results to file",
     "Format output for display"]

/-- Model of `WorkflowEngine.plan` (lines 42–105): template truncated to
`max_steps`. -/
def planModel (maxSteps : ℕ) (goal : String) : List String :=
  (planSteps goal).take maxSteps

/-- Exceptions `execute` can propagate: a Python `AttributeError` raised by
looking up a method name the receiver class does not define, or an
exception raised by a step operation. -/
inductive PyError where
  | attributeError (cls attr : String)
  | raised (msg : String)
  deriving DecidableEq

/-- Calling `self.memory.<attr>(...)`: Python resolves the attribute on the
`Memory` instance; a name not defined by `class Memory` raises
`AttributeError`. -/
def memCall (attr : String) : Except PyError Unit :=
  if attr ∈ memoryMethods then .ok () else .error (.attributeError "Memory" attr)

/-- The value `execute` returns when it does not raise: the `"status"` and
`"error"` fields of the result dict (lines 134 and 137). -/
structure ExecResult where
  status : String
  error : Option String
  deriving DecidableEq

/-- Body of the `for` loop of `WorkflowEngine.execute` (lines 119–134).
`stepOp` abstracts `self._run_step`: `.error msg` models the step operation
raising an exception with text `msg`.  The `try` block spans both the step
call and the `self.memory.log_step(...)` on the success path; the `except`
handler itself calls `self.memory.log_step` and `self.memory.set_error`
outside any `try`, so their failures propagate. -/
def execLoop (stepOp : String → Except String (String × Option JVal)) :
    List String → Except PyError ExecResult
  | [] => do
    -- line 136: self.memory.set_final_output(final_output)
    memCall "set_final_output"
    -- line 137: return with self.memory.get_state()
    memCall "get_state"
    pure ⟨"completed", none⟩
  | d :: rest =>
    -- try: result = self._run_step(...); self.memory.log_step(...)
    let tryBody : Except PyError Unit := do
      match stepOp d with
      | .error e => .error (.raised e)
      | .ok _ => memCall "log_step"
    match tryBody with
    | .ok () => execLoop stepOp rest
    | .error e => do
      -- except Exception as e: (lines 131–134)
      memCall "log_step"
      memCall "set_error"
      memCall "get_state"
      pure ⟨"error", some (match e with
        | .attributeError cls attr => "'" ++ cls ++ "' object has no attribute '" ++ attr ++ "'"
        | .raised msg => msg)⟩

/-- Model of `WorkflowEngine.execute` (workflow_engine.py lines 107–137). -/
def executeModel (stepOp : String → Except String (String × Option JVal))
    (maxSteps : ℕ) (plan : List String) (_goal : String) : Except PyError ExecResult := do
  -- line 113: self.memory.start_workflow(goal, plan)
  memCall "start_workflow"
  execLoop stepOp (plan.take maxSteps)

/-! ### tools.py — team database -/

/-- One entry of `Tools.WORLD_CUP_TEAMS` (tools.py lines 35–158). -/
structure TeamInfo where
  name : String
  code : String
  confederation : String
  flag : String
  fifa_points : ℚ
  world_cup_wins : ℚ
  world_cup_appearances : ℚ
  last_world_cup : String
  key_players : List String
  squad_size : ℚ
  avg_age : ℚ
  ovr_rating : ℚ
  home_advantage : Bool
  deriving DecidableEq

/-- The table `Tools.WORLD_CUP_TEAMS`, in the dict's insertion order (Python dicts
iterate in insertion order). -/
def WORLD_CUP_TEAMS : List TeamInfo :=
  [{ name := "Argentina", code := "ARG", confederation := "CONMEBOL",
     flag := "https://upload.wikimedia.org/wikipedia/commons/thumb/1/1a/Flag_of_Argentina.svg/50px-Flag_of_Argentina.svg.png",
     fifa_points := 1851, world_cup_wins := 3, world_cup_appearances := 18,
     last_world_cup := "2022 (Winners)",
     key_players := ["Lionel Messi", "Julian Alvarez", "Enzo Fernandez"],
     squad_size := 26, avg_age := 28, ovr_rating := 87, home_advantage := false },
   { name := "France", code := "FRA", confederation := "UEFA",
     flag := "https://upload.wikimedia.org/wikipedia/commons/thumb/c/c3/Flag_of_France.svg/50px-Flag_of_France.svg.png",
     fifa_points := 1842, world_cup_wins := 2, world_cup_appearances := 16,
     last_world_cup := "2022 (Finalists)",
     key_players := ["Kylian Mbappe", "Antoine Griezmann", "Aurelien Tchouameni"],
     squad_size := 26, avg_age := 27, ovr_rating := 86, home_advantage := false },
   { name := "Brazil", code := "BRA", confederation := "CONMEBOL",
     flag := "https://upload.wikimedia.org/wikipedia/commons/thumb/0/05/Flag_of_Brazil.svg/50px-Flag_of_Brazil.svg.png",
     fifa_points := 1830, world_cup_wins := 5, world_cup_appearances := 22,
     last_world_cup := "2022 (Quarter-Finals)",
     key_players := ["Vinicius Jr", "Richarlison", "Casemiro"],
     squad_size := 26, avg_age := 27, ovr_rating := 85, home_advantage := false },
   { name := "England", code := "ENG", confederation := "UEFA",
     flag := "https://upload.wikimedia.org/wikipedia/commons/thumb/a/a5/Flag_of_the_United_Kingdom.svg/50px-Flag_of_the_United_Kingdom.svg.png",
     fifa_points := 1797, world_cup_wins := 1, world_cup_appearances := 16,
     last_world_cup := "2022 (Quarter-Finals)",
     key_players := ["Harry Kane", "Jude Bellingham", "Phil Foden"],
     squad_size := 26, avg_age := 26, ovr_rating := 85, home_advantage := false },
   { name := "Spain", code := "ESP", confederation := "UEFA",
     flag := "https://upload.wikimedia.org/wikipedia/commons/thumb/9/9a/Flag_of_Spain.svg/50px-Flag_of_Spain.svg.png",
     fifa_points := 1775, world_cup_wins := 1, world_cup_appearances := 16,
     last_world_cup := "2022 (Round of 16)",
     key_players := ["Pedri", "Rodri", "Lamine Yamal"],
     squad_size := 26, avg_age := 26, ovr_rating := 84, home_advantage := false },
   { name := "Germany", code := "GER", confederation := "UEFA",
     flag := "https://upload.wikimedia.org/wikipedia/commons/thumb/b/ba/Flag_of_Germany.svg/50px-Flag_of_Germany.svg.png",
     fifa_points := 1753, world_cup_wins := 4, world_cup_appearances := 20,
     last_world_cup := "2022 (Group Stage",
     key_players := ["Jamal Musiala", "Florian Wirtz", "Ilkay Gundogan"],
     squad_size := 26, avg_age := 27, ovr_rating := 84, home_advantage := false },
   { name := "Netherlands", code := "NED", confederation := "UEFA",
     flag := "https://upload.wikimedia.org/wikipedia/commons/thumb/2/20/Flag_of_the_Netherlands.svg/50px-Flag_of_the_Netherlands.svg.png",
     fifa_points := 1710, world_cup_wins := 0, world_cup_appearances := 11,
     last_world_cup := "2022 (Quarter-Finals)",
     key_players := ["Virgil van Dijk", "Memphis Depay", "Frenkie de Jong"],
     squad_size := 26, avg_age := 27, ovr_rating := 83, home_advantage := false },
   { name := "Portugal", code := "POR", confederation := "UEFA",
     flag := "https://upload.wikimedia.org/wikipedia/commons/thumb/5/5c/Flag_of_Portugal.svg/50px-Flag_of_Portugal.svg.png",
     fifa_points := 1697, world_cup_wins := 0, world_cup_appearances := 8,
     last_world_cup := "2022 (Quarter-Finals)",
     key_players := ["Cristiano Ronaldo", "Bruno Fernandes", "Bernardo Silva"],
     squad_size := 26, avg_age := 28, ovr_rating := 83, home_advantage := false },
   { name := "Belgium", code := "BEL", confederation := "UEFA",
     flag := "https://upload.wikimedia.org/wikipedia/commons/thumb/6/65/Flag_of_Belgium.svg/50px-Flag_of_Belgium.svg.png",
     fifa_points := 1684, world_cup_wins := 0, world_cup_appearances := 14,
     last_world_cup := "2022 (Group Stage)",
     key_players := ["Kevin De Bruyne", "Romelu Lukaku", "Jeremy Doku"],
     squad_size := 26, avg_age := 28, ovr_rating := 82, home_advantage := false },
   { name := "Italy", code := "ITA", confederation := "UEFA",
     flag := "https://upload.wikimedia.org/wikipedia/commons/thumb/0/03/Flag_of_Italy.svg/50px-Flag_of_Italy.svg.png",
     fifa_points := 1731, world_cup_wins := 4, world_cup_appearances := 18,
     last_world_cup := "2022 (Did not qualify)",
     key_players := ["Gianluigi Donnarumma", "Federico Chiesa", "Nicolo Barella"],
     squad_size := 26, avg_age := 26, ovr_rating := 82, home_advantage := false },
   { name := "Croatia", code := "CRO", confederation := "UEFA",
     flag := "https://upload.wikimedia.org/wikipedia/commons/thumb/1/17/Flag_of_Croatia.svg/50px-Flag_of_Croatia.svg.png",
     fifa_points := 1664, world_cup_wins := 0, world_cup_appearances := 6,
     last_world_cup := "2022 (Third Place)",
     key_players := ["Luka Modric", "Mateo Kovacic", "Josko Gvardiol"],
     squad_size := 26, avg_age := 29, ovr_rating := 82, home_advantage := false },
   { name := "Uruguay", code := "URU", confederation := "CONMEBOL",
     flag := "https://upload.wikimedia.org/wikipedia/commons/thumb/f/fe/Flag_of_Uruguay.svg/50px-Flag_of_Uruguay.svg.png",
     fifa_points := 1644, world_cup_wins := 2, world_cup_appearances := 14,
     last_world_cup := "2022 (Quarter-Finals)",
     key_players := ["Darwin Nunez", "Federico Valverde", "Rodrigo Bentancur"],
     squad_size := 26, avg_age := 28, ovr_rating := 81, home_advantage := false },
   { name := "USA", code := "USA", confederation := "CONCACAF",
     flag := "https://upload.wikimedia.org/wikipedia/commons/thumb/a/a4/Flag_of_the_United_States.svg/50px-Flag_of_the_United_States.svg.png",
     fifa_points := 1611, world_cup_wins := 0, world_cup_appearances := 11,
     last_world_cup := "2022 (Round of 16)",
     key_players := ["Christian Pulisic", "Tyler Adams", "Josh Sargent"],
     squad_size := 26, avg_age := 25, ovr_rating := 79, home_advantage := true },
   { name := "Mexico", code := "MEX", confederation := "CONCACAF",
     flag := "https://upload.wikimedia.org/wikipedia/commons/thumb/f/fc/Flag_of_Mexico.svg/50px-Flag_of_Mexico.svg.png",
     fifa_points := 1597, world_cup_wins := 0, world_cup_appearances := 17,
     last_world_cup := "2022 (Group Stage)",
     key_players := ["Hirving Lozano", "Edson Alvarez", "Santiago Jimenez"],
     squad_size := 26, avg_age := 27, ovr_rating := 79, home_advantage := true },
   { name := "Japan", code := "JPN", confederation := "AFC",
     flag := "https://upload.wikimedia.org/wikipedia/commons/thumb/9/9e/Flag_of_Japan.svg/50px-Flag_of_Japan.svg.png",
     fifa_points := 1586, world_cup_wins := 0, world_cup_appearances := 7,
     last_world_cup := "2022 (Round of 16)",
     key_players := ["Daizen Maeda", "Takehiro Tomiyasu", "Wataru Endo"],
     squad_size := 26, avg_age := 27, ovr_rating := 79, home_advantage := false },
   { name := "South Korea", code := "KOR", confederation := "AFC",
     flag := "https://upload.wikimedia.org/wikipedia/commons/thumb/0/09/Flag_of_South_Korea.svg/50px-Flag_of_South_Korea.svg.png",
     fifa_points := 1575, world_cup_wins := 0, world_cup_appearances := 11,
     last_world_cup := "2022 (Group Stage)",
     key_players := ["Son Heung-min", "Kim Min-jae", "Lee Kang-in"],
     squad_size := 26, avg_age := 27, ovr_rating := 78, home_advantage := false },
   { name := "Morocco", code := "MAR", confederation := "CAF",
     flag := "https://upload.wikimedia.org/wikipedia/commons/thumb/2/2c/Flag_of_Morocco.svg/50px-Flag_of_Morocco.svg.png",
     fifa_points := 1553, world_cup_wins := 0, world_cup_appearances := 6,
     last_world_cup := "2022 (Semi-Finals)",
     key_players := ["Achraf Hakimi", "Youssef En-Nesyri", "Sofyan Amrabat"],
     squad_size := 26, avg_age := 27, ovr_rating := 80, home_advantage := false },
   { name := "Senegal", code := "SEN", confederation := "CAF",
     flag := "https://upload.wikimedia.org/wikipedia/commons/thumb/f/fd/Flag_of_Senegal.svg/50px-Flag_of_Senegal.svg.png",
     fifa_points := 1542, world_cup_wins := 0, world_cup_appearances := 3,
     last_world_cup := "2022 (Round of 16)",
     key_players := ["Sadio Mane", "Idrissa Gueye", "Nicolas Jackson"],
     squad_size := 26, avg_age := 27, ovr_rating := 78, home_advantage := false },
   { name := "Colombia", code := "COL", confederation := "CONMEBOL",
     flag := "https://upload.wikimedia.org/wikipedia/commons/thumb/2/27/Flag_of_Colombia.svg/50px-Flag_of_Colombia.svg.png",
     fifa_points := 1624, world_cup_wins := 0, world_cup_appearances := 6,
     last_world_cup := "2018 (Group Stage)",
     key_players := ["James Rodriguez", "Luis Diaz", "Juan Cuadrado"],
     squad_size := 26, avg_age := 27, ovr_rating := 79, home_advantage := false },
   { name := "Australia", code := "AUS", confederation := "AFC",
     flag := "https://upload.wikimedia.org/wikipedia/commons/thumb/8/88/Flag_of_Australia_%28converted%29.svg/50px-Flag_of_Australia_%28converted%29.svg.png",
     fifa_points := 1564, world_cup_wins := 0, world_cup_appearances := 6,
     last_world_cup := "2022 (Round of 16)",
     key_players := ["Mathew Leckie", "Aaron Mooy", "Miloš Degenek"],
     squad_size := 26, avg_age := 27, ovr_rating := 77, home_advantage := false }]

/-- The table `Tools.CONFEDERATION_STRENGTH` with the `.get(confed, 1.0)` default
applied at lookup (tools.py lines 161–168 and 313). -/
def confederationStrength : String → ℚ
  | "CONMEBOL" => mkRat 115 100
  | "UEFA" => mkRat 110 100
  | "CONCACAF" => mkRat 90 100
  | "AFC" => mkRat 85 100
  | "CAF" => mkRat 85 100
  | "OFC" => mkRat 70 100
  | _ => 1

/-! ### Rational arithmetic, computably.

Mathlib's bundled `ℚ` operations (`+`, `-`, `*`, `0.25`, `min`, `⌊·⌋`, …)
are `@[irreducible]` in this toolchain, so terms built from them cannot be
evaluated by `decide`/`rfl`.  The embedding therefore uses the following
wrappers, built from the reducible smart constructor `mkRat`; each is
proved equal to the corresponding Mathlib operation in the lemma section
below, so the two views coincide. -/

/-- Addition on `ℚ` (kernel-reducible; equals `a + b`). -/
def qAdd (a b : ℚ) : ℚ :=
  mkRat (a.num * b.den + b.num * a.den) (a.den * b.den)

/-- Multiplication on `ℚ` (kernel-reducible; equals `a * b`). -/
def qMul (a b : ℚ) : ℚ :=
  mkRat (a.num * b.num) (a.den * b.den)

/-- Subtraction on `ℚ` (kernel-reducible; equals `a - b`). -/
def qSub (a b : ℚ) : ℚ :=
  qAdd a (-b)

/-- Comparison `a ≤ b` as a kernel-reducible Boolean. -/
def qLe (a b : ℚ) : Bool :=
  decide (a ≤ b)

/-- Comparison `a < b` as a kernel-reducible Boolean. -/
def qLt (a b : ℚ) : Bool :=
  decide (a < b)

/-! ### Rounding and sorting -/

/-- The floor of a rational, computed from its reduced fraction. -/
def ratFloorZ (q : ℚ) : ℤ :=
  Int.fdiv q.num q.den

/-- Python's `min` on two numbers. -/
def ratMin (a b : ℚ) : ℚ :=
  if qLe a b then a else b

/-- Python's `max` on two numbers. -/
def ratMax (a b : ℚ) : ℚ :=
  if qLe a b then b else a

/-- Round half to even, the tie-breaking rule of Python's `round`. -/
def roundHalfEven (q : ℚ) : ℤ :=
  if qLt (qSub q (ratFloorZ q : ℚ)) (mkRat 1 2) then ratFloorZ q
  else if qLt (mkRat 1 2) (qSub q (ratFloorZ q : ℚ)) then ratFloorZ q + 1
  else if ratFloorZ q % 2 = 0 then ratFloorZ q else ratFloorZ q + 1

/-- Python's `round(x, 2)` on the exact rational value: round `100·x` half
to even and divide by 100 (division written as multiplication by `1/100`,
which is the same exact rational). -/
def pyRound2 (q : ℚ) : ℚ :=
  qMul (roundHalfEven (qMul q 100) : ℚ) (mkRat 1 100)

/-- Stable descending insertion: `x` goes in front of the first element it
is greater than or equal to.  `sortDesc` below therefore has exactly the
semantics of Python's stable `sorted(..., reverse=True)` / `list.sort(...,
reverse=True)`: descending by key, ties kept in input order. -/
def insertDesc {α : Type} (score : α → ℚ) (x : α) : List α → List α
  | [] => [x]
  | y :: ys => if qLe (score y) (score x) then x :: y :: ys else y :: insertDesc score x ys

/-- Stable descending sort by a rational key. -/
def sortDesc {α : Type} (score : α → ℚ) (l : List α) : List α :=
  l.foldr (insertDesc score) []

/-! ### tools.py — the advanced prediction algorithm -/

/-- Factor 7 of `calculate_advanced_predictions` (tools.py lines 321–335):
the recent-form step function on `last_world_cup`.  The final `else` branch
is `random.uniform(1, 3)`; `u` is that draw. -/
def formScore (lastWc : String) (u : ℚ) : ℚ :=
  if strContains lastWc "Winner" || strContains lastWc "Final" then 8
  else if strContains lastWc "Semi" || strContains lastWc "Third" then 6
  else if strContains lastWc "Quarter" then 4
  else if strContains lastWc "Round of 16" then 2
  else if strContains lastWc "Group Stage" || strContains lastWc "Did not qualify" then 0
  else u

/-- The seven-factor raw score of `calculate_advanced_predictions`
(tools.py lines 285–337); `rank` is the team's 1-based position in
`WORLD_CUP_TEAMS`, `u` the `random.uniform(1, 3)` draw.  Summed in the
source's order:
`(21−rank)·10·0.25 + (points−1500)/100·0.20
 + (wins·5 + min(appearances,20)·0.5)·0.15 + (rating−70)·0.20
 + (confed−1.0)·100·0.10 + (home ? 15·0.05 : 0) + form·0.05`. -/
def teamRawScore (rank : ℕ) (t : TeamInfo) (u : ℚ) : ℚ :=
  qAdd (qAdd (qAdd (qAdd (qAdd (qAdd
    (qMul (qMul (qSub 21 (rank : ℚ)) 10) (mkRat 25 100))
    (qMul (qMul (qSub t.fifa_points 1500) (mkRat 1 100)) (mkRat 20 100)))
    (qMul (qAdd (qMul t.world_cup_wins 5)
      (qMul (ratMin t.world_cup_appearances 20) (mkRat 5 10))) (mkRat 15 100)))
    (qMul (qSub t.ovr_rating 70) (mkRat 20 100)))
    (qMul (qMul (qSub (confederationStrength t.confederation) 1) 100) (mkRat 10 100)))
    (if t.home_advantage then qMul 15 (mkRat 5 100) else 0))
    (qMul (formScore t.last_world_cup u) (mkRat 5 100))

/-- One value of the `predictions` dict built by
`calculate_advanced_predictions` (tools.py lines 339–351), keyed by team. -/
structure TeamScore where
  team : String
  score : ℚ
  fifa_rank : ℕ
  fifa_points : ℚ
  world_cup_wins : ℚ
  squad_rating : ℚ
  confederation : String
  home_advantage : Bool
  crest : String
  shortName : String
  key_players : List String
  last_world_cup : String
  deriving DecidableEq

/-- The `predictions` dict of `calculate_advanced_predictions` in team
order: every team scored with its insertion-order rank. -/
def scoredTeams (u : ℚ) : List TeamScore :=
  WORLD_CUP_TEAMS.enum.map fun p =>
    let rank := p.1 + 1
    let t := p.2
    { team := t.name, score := pyRound2 (teamRawScore rank t u), fifa_rank := rank,
      fifa_points := t.fifa_points, world_cup_wins := t.world_cup_wins,
      squad_rating := t.ovr_rating, confederation := t.confederation,
      home_advantage := t.home_advantage, crest := t.flag, shortName := t.code,
      key_players := t.key_players, last_world_cup := t.last_world_cup }

/-- Model of `Tools._calculate_confidence` (tools.py lines 382–393). -/
def confidenceLabel (rank : ℕ) (score : ℚ) : String :=
  if rank = 1 ∧ 80 < score then "Very High"
  else if rank ≤ 3 ∧ 60 < score then "High"
  else if rank ≤ 5 ∧ 40 < score then "Medium"
  else if rank ≤ 8 ∧ 20 < score then "Low"
  else "Speculative"

/-- The `formatted` output dict of `calculate_advanced_predictions`
(tools.py lines 357–368): sort all scored teams descending by (rounded)
score, keep the top 10, key them `"1"`..`"10"`, and build each entry dict
exactly as the source's dict literal does — note that no `probability`
field is ever produced. -/
def calcAdvancedFormatted (u : ℚ) : List (String × List (String × JVal)) :=
  ((sortDesc (fun e => e.score) (scoredTeams u)).take 10).enum.map fun p =>
    let i := p.1 + 1
    let e := p.2
    (toString i,
      [("team", .str e.team), ("score", .num e.score), ("crest", .str e.crest),
       ("shortName", .str e.shortName), ("fifa_rank", .num e.fifa_rank),
       ("squad_rating", .num e.squad_rating),
       ("key_players", .arr (e.key_players.map .str)),
       ("confidence", .str (confidenceLabel i e.score))])

/-- Model of `Tools.calculate_predictions` (tools.py lines 528–530) ignores both of
its arguments and delegates to the advanced algorithm. -/
def calculate_predictions (_data : JVal) (_weights : List (String × ℚ)) (u : ℚ) :
    List (String × List (String × JVal)) :=
  calcAdvancedFormatted u

/-! ### tools.py — legacy data methods -/

/-- One entry of the `teams` list built by `Tools.fetch_fifa_rankings`
(tools.py lines 402–413). -/
structure RankEntry where
  rank : ℕ
  team : String
  points : ℚ
  confederation : String
  crest : String
  shortName : String
  world_cup_wins : ℚ
  squad_rating : ℚ
  home_advantage : Bool
  deriving DecidableEq

/-- The `data` list of `Tools.fetch_fifa_rankings` (tools.py lines
399–420): it simply enumerates `WORLD_CUP_TEAMS` with `rank = i` from
`enumerate(..., 1)`, i.e. each team's 1-based position in the dict's
insertion order — no sorting of any kind. -/
def fetch_fifa_rankings_data : List RankEntry :=
  WORLD_CUP_TEAMS.enum.map fun p =>
    let t := p.2
    { rank := p.1 + 1, team := t.name, points := t.fifa_points,
      confederation := t.confederation, crest := t.flag, shortName := t.code,
      world_cup_wins := t.world_cup_wins, squad_rating := t.ovr_rating,
      home_advantage := t.home_advantage }

/-- One player dict appended by `Tools._get_all_players` (tools.py lines
467–478). -/
structure PlayerOut where
  name : String
  nationality : String
  position : String
  goals : ℤ
  assists : ℤ
  rating : ℤ
  team : String
  photo : String
  teamCrest : String
  wikipedia_url : String
  deriving DecidableEq

/-- Python's `name.replace(" ", "_")`. -/
def replaceSpaces (s : String) : String :=
  ⟨s.data.map fun c => if c = ' ' then '_' else c⟩

/-- Model of `random.randint(a, b)`: some value in `[a, b]` determined by the
generator state.  We thread the generator as a stream of integers `v` and
map each draw into the requested range, so every stream yields a run that
the real generator could produce, and every possible run is reached by
some stream. -/
def randintDraw (a b v : ℤ) : ℤ :=
  a + (v - a) % (b - a + 1)

/-- The position/rating classification of `_get_all_players` (tools.py
lines 454–465): substring tests on the player's name. -/
def playerPositionRating (nm : String) : String × ℤ :=
  if strContains nm "GK" || strContains nm "Donnarumma" || strContains nm "Courtois"
      || strContains nm "Alisson" || strContains nm "Martinez" then ("Goalkeeper", 87)
  else if strContains nm "van Dijk" || strContains nm "Dias" then ("Defender", 88)
  else if strContains nm "Modric" || strContains nm "De Bruyne"
      || strContains nm "Bellingham" || strContains nm "Fernandez" then ("Midfielder", 89)
  else ("Forward", 90)

/-- One player built by `_get_all_players`; `idx` is the player's position
in the overall iteration, used to index the three `randint` draws the
source makes per player (goals, assists, rating jitter — in that order). -/
def mkPlayer (rng : ℕ → ℤ) (idx : ℕ) (teamName crest nm : String) : PlayerOut :=
  let pr := playerPositionRating nm
  let goals := if pr.1 = "Forward" then randintDraw 30 100 (rng (3 * idx))
               else randintDraw 5 30 (rng (3 * idx))
  { name := nm, nationality := teamName, position := pr.1,
    goals := goals, assists := randintDraw 10 50 (rng (3 * idx + 1)),
    rating := pr.2 + randintDraw (-3) 3 (rng (3 * idx + 2)),
    team := teamName, photo := crest, teamCrest := crest,
    wikipedia_url := "https://en.wikipedia.org/wiki/" ++ replaceSpaces nm }

/-- Model of `Tools._get_all_players` (tools.py lines 445–480): for every team, one
player per key player (first 3), with `randint`-drawn goals, assists and
rating jitter supplied by the generator stream `rng`. -/
def getAllPlayers (rng : ℕ → ℤ) : List PlayerOut :=
  ((WORLD_CUP_TEAMS.flatMap fun t =>
      (t.key_players.take 3).map fun nm => (t.name, t.flag, nm)).enum).map
    fun p => mkPlayer rng p.1 p.2.1 p.2.2.1 p.2.2.2

/-! ### tools.py — player award scoring -/

/-- An input player dict for `calculate_player_scores`: every key the
function reads, each optional because the source reads them with
`player.get(key, default)`.  `age` is part of the repository's player data
model but is never read by `calculate_player_scores`. -/
structure PlayerRec where
  name : Option String
  nationality : Option String
  team : Option String
  position : Option String
  goals : Option ℚ
  assists : Option ℚ
  rating : Option ℚ
  clean_sheets : Option ℚ
  age : Option ℚ
  photo : Option String
  teamCrest : Option String
  deriving DecidableEq

/-- A default-everything player record, for building concrete inputs. -/
def emptyPlayer : PlayerRec :=
  { name := none, nationality := none, team := none, position := none,
    goals := none, assists := none, rating := none, clean_sheets := none,
    age := none, photo := none, teamCrest := none }

/-- The per-award raw score of `calculate_player_scores` (tools.py lines
536–548), with the source's `player.get(...)` defaults. -/
def playerAwardScore (award : String) (p : PlayerRec) : ℚ :=
  if award = "golden_ball" then
    qAdd (qAdd (qMul (p.rating.getD 80) (mkRat 4 10)) (qMul (p.goals.getD 0) (mkRat 3 10)))
      (qMul (p.assists.getD 0) (mkRat 3 10))
  else if award = "golden_boot" then
    qAdd (qMul (p.goals.getD 0) (mkRat 8 10)) (qMul (p.rating.getD 80) (mkRat 2 10))
  else if award = "golden_glove" then
    qAdd (qMul (p.clean_sheets.getD 0) (mkRat 5 10)) (qMul (p.rating.getD 80) (mkRat 5 10))
  else if award = "young_player" then
    qAdd (qAdd (qMul (p.rating.getD 80) (mkRat 5 10)) (qMul (p.goals.getD 0) (mkRat 3 10)))
      (qMul (p.assists.getD 0) (mkRat 2 10))
  else
    p.rating.getD 80

/-- One entry appended to `player_scores` (tools.py lines 550–556). -/
structure ScoredPlayer where
  name : String
  score : ℚ
  nationality : String
  team : String
  photo : String
  deriving DecidableEq

/-- The output of `Tools.calculate_player_scores` (tools.py lines 532–570),
timestamp omitted: `data` is the top five of the descending stable sort of
the scored players, `formatted` keys them `"1"`..`"5"`.  There is no
fallback roster anywhere in the function: however few players come in,
only they are scored. -/
structure PlayerScoresOut where
  action : String
  result : String
  data : List ScoredPlayer
  formatted : List (String × ScoredPlayer)
  deriving DecidableEq

/-- Model of `Tools.calculate_player_scores` (tools.py lines 532–570). -/
def calculate_player_scores (players : List PlayerRec) (award : String) : PlayerScoresOut :=
  let player_scores := players.map fun p =>
    { name := p.name.getD "Unknown",
      score := pyRound2 (playerAwardScore award p),
      nationality := p.nationality.getD "Unknown",
      team := p.team.getD "Unknown",
      photo := p.teamCrest.getD (p.photo.getD "") }
  let sorted := sortDesc (fun s => s.score) player_scores
  { action := "calculate_player_scores",
    result := "✓ Calculated " ++ award ++ " scores",
    data := sorted.take 5,
    formatted := (sorted.take 5).enum.map fun q => (toString (q.1 + 1), q.2) }

/-- Modelled from the spec: the claimed YoungPlayer formula
"`age_bonus + rating×0.4 + goals×0.3 + assists×0.2`, where
`age_bonus = max(0, (22 − age) × 3)`" — stated for comparison with the
code's actual young-player branch. -/
def specYoungPlayerScore (p : PlayerRec) : ℚ :=
  qAdd (qAdd (qAdd (ratMax 0 (qMul (qSub 22 (p.age.getD 0)) 3))
    (qMul (p.rating.getD 80) (mkRat 4 10)))
    (qMul (p.goals.getD 0) (mkRat 3 10)))
    (qMul (p.assists.getD 0) (mkRat 2 10))

/-! ### wikipedia.py — TTL cache and FIFA-ranking accessor -/

/-- The constant `CACHE_TTL_SECONDS` (wikipedia.py line 22): 24 hours. -/
def CACHE_TTL_SECONDS : ℚ := 86400

/-- The on-disk cache file for a key, as `_cached_get` can find it: absent;
present but not valid JSON (so `json.load` raises `JSONDecodeError`, which
the source catches); or present with a parsed JSON value. -/
inductive CacheFile where
  | missing
  | invalid
  | valid (v : JVal)
  deriving DecidableEq

/-- Python's `v.get(k, default)`: defined on dicts only — on any other
value the attribute lookup `.get` raises `AttributeError`, which
`_cached_get`'s `except (json.JSONDecodeError, KeyError)` does not catch. -/
def pyDictGet (v : JVal) (k : String) (dflt : JVal) : Except String JVal :=
  match v with
  | .obj fields => .ok ((fields.lookup k).getD dflt)
  | _ => .error "AttributeError: object has no attribute get"

/-- The freshness test `data.get("_ts", 0) + CACHE_TTL_SECONDS > time.time()`
(wikipedia.py line 100): defined when `_ts` is a number; adding the TTL to
any other JSON value raises `TypeError`, also uncaught. -/
def tsFresh (ts : JVal) (now : ℚ) : Except String Bool :=
  match ts with
  | .num q => .ok (qLt now (qAdd q CACHE_TTL_SECONDS))
  | _ => .error "TypeError: unsupported operand type for +"

/-- The miss path of `_cached_get` (wikipedia.py lines 104–112): without
`requests` return `None`; otherwise run `fetch_fn()` and write the cache —
`fetchOutcome = none` models `fetch_fn()` (or the cache write) raising, in
which case the wrapping `except Exception` returns `None`. -/
def fetchPath (hasRequests : Bool) (fetchOutcome : Option JVal) : JVal :=
  if !hasRequests then .null
  else match fetchOutcome with
    | none => .null
    | some d => d

/-- Model of `_cached_get` (wikipedia.py lines 94–112): on a parsed cache file, read
`_ts` (raising on a non-dict), test freshness (raising on a non-numeric
timestamp), return the cached `data` when fresh; on a missing or
unparseable file, or an expired entry, run the fetch path. -/
def cached_get (cache : CacheFile) (now : ℚ) (hasRequests : Bool)
    (fetchOutcome : Option JVal) : Except String JVal :=
  match cache with
  | .missing => .ok (fetchPath hasRequests fetchOutcome)
  | .invalid => .ok (fetchPath hasRequests fetchOutcome)
  | .valid v =>
    match pyDictGet v "_ts" (.num 0) with
    | .error e => .error e
    | .ok ts =>
      match tsFresh ts now with
      | .error e => .error e
      | .ok fresh =>
        if fresh then pyDictGet v "data" .null
        else .ok (fetchPath hasRequests fetchOutcome)

/-- The team names of `FIFA_RANKING_FALLBACK` (wikipedia.py lines
642–649). -/
def fifaFallbackNames : List String :=
  ["Argentina", "France", "Brazil", "England", "Belgium", "Portugal", "Netherlands",
   "Spain", "Italy", "Croatia", "USA", "Morocco", "Mexico", "Switzerland", "Uruguay",
   "Germany", "Colombia", "Senegal", "Japan", "Iran", "Denmark", "South Korea",
   "Australia", "Ukraine"]

/-- The rows of `FIFA_RANKING_FALLBACK`: the static hand-curated ranking
table, built by the source's comprehension `{"rank": i + 1, "team": name,
"points": max(1200, 1850 - i * 25)}`. -/
def fifaFallbackRows : List JVal :=
  fifaFallbackNames.enum.map fun p =>
    .obj [("rank", .num ((p.1 : ℚ) + 1)), ("team", .str p.2),
          ("points", .num (ratMax 1200 (qSub 1850 (qMul (p.1 : ℚ) 25))))]

/-- The value `FIFA_RANKING_FALLBACK` (wikipedia.py lines 642–649). -/
def FIFA_RANKING_FALLBACK : JVal :=
  .arr fifaFallbackRows

/-- Model of `get_fifa_rankings_wiki` (wikipedia.py lines 652–686):
`result = _cached_get(key, fetch) or []`, then the fallback when `result`
is falsy.  The fetch closure always returns a (possibly empty) list of
parsed rows, abstracted here as `fetchOutcome`. -/
def get_fifa_rankings_wiki (cache : CacheFile) (now : ℚ) (hasRequests : Bool)
    (fetchOutcome : Option JVal) : Except String JVal :=
  match cached_get cache now hasRequests fetchOutcome with
  | .error e => .error e
  | .ok v =>
    let result := if pyTruthy v then v else .arr []
    .ok (if pyTruthy result then result else FIFA_RANKING_FALLBACK)

/-! ### Small helpers for stating the properties -/

/-- Returns `true` iff a rational list is sorted in non-increasing order. -/
def sortedDescBool : List ℚ → Bool
  | [] => true
  | [_] => true
  | a :: b :: rest => qLe b a && sortedDescBool (b :: rest)

/-- Returns `true` iff a formatted prediction entry has a numeric, strictly
positive `score` field. -/
def entryScorePos (e : List (String × JVal)) : Bool :=
  match e.lookup "score" with
  | some (.num s) => qLt 0 s
  | _ => false

/-- Returns `true` iff the value is a JSON list. -/
def jIsList : JVal → Bool
  | .arr _ => true
  | _ => false

/-- A cache file in the only shape `_cached_get` itself ever writes
(wikipedia.py line 109: `json.dump({"_ts": time.time(), "data": data}, f)`
where `data` is the row list returned by `fetch`), or no usable file. -/
def cacheWritten : CacheFile → Prop
  | .valid v => ∃ t rows, v = .obj [("_ts", .num t), ("data", .arr rows)]
  | _ => True

/-- The `fetch` closure of `get_fifa_rankings_wiki` always returns a
(possibly empty) list of rows, so a non-raising fetch outcome is a JSON
list. -/
def fetchRows : Option JVal → Prop
  | none => True
  | some v => ∃ rows, v = .arr rows

/-- Concrete input for the young-player formula comparison: an 18-year-old
with rating 80, 10 goals, 10 assists. -/
def c5Player : PlayerRec :=
  { emptyPlayer with
    name := some "Prospect", age := some 18,
    rating := some 80, goals := some 10, assists := some 10 }

/-- A fresh cache file whose payload is a JSON object (a well-formed
`{_ts, data}` document, but with a non-list payload). -/
def c6Cache : CacheFile :=
  .valid (.obj [("_ts", .num 9999999999), ("data", .obj [("cached", .num 1)])])

/-- A heap holding one `Memory` record at address 0, in the freshly-reset
state `_create_empty_memory` produces. -/
def initialHeap : Heap := ⟨[(0, createEmptyMemory)], 1⟩

/-- The `Memory` object whose `self.memory` points at address 0. -/
def theMemory : MemoryObj := ⟨0⟩

/-- Two concrete generator streams (all draws 0, resp. all draws 1). -/
def rngZero : ℕ → ℤ := fun _ => 0

/-- See `rngZero`. -/
def rngOne : ℕ → ℤ := fun _ => 1

/-! ## Helper lemmas -/

theorem length_insertDesc {α : Type} (score : α → ℚ) (x : α) (l : List α) :
    (insertDesc score x l).length = l.length + 1 := by
  induction l with
  | nil => rfl
  | cons y ys ih => simp only [insertDesc]; split <;> simp [ih]

theorem length_sortDesc {α : Type} (score : α → ℚ) (l : List α) :
    (sortDesc score l).length = l.length := by
  induction l with
  | nil => rfl
  | cons y ys ih =>
    simp only [sortDesc, List.foldr, length_insertDesc, List.length_cons] at *
    omega

theorem mem_insertDesc {α : Type} (score : α → ℚ) (x a : α) (l : List α) :
    a ∈ insertDesc score x l ↔ a = x ∨ a ∈ l := by
  induction l with
  | nil => simp [insertDesc]
  | cons y ys ih =>
    simp only [insertDesc]; split
    · simp [or_comm, or_left_comm]
    · simp [ih]; tauto

theorem mem_sortDesc {α : Type} (score : α → ℚ) (a : α) (l : List α) :
    a ∈ sortDesc score l ↔ a ∈ l := by
  induction l with
  | nil => simp [sortDesc]
  | cons y ys ih =>
    simp only [sortDesc, List.foldr] at *
    rw [mem_insertDesc, ih]
    simp

/-- Each of the five plan templates has 8 or 9 steps. -/
theorem planSteps_length (goal : String) :
    (planSteps goal).length = 9 ∨ (planSteps goal).length = 8 := by
  simp only [planSteps]
  split_ifs <;> simp

/-- The computable `qAdd` agrees with Mathlib's addition on `ℚ`. -/
theorem qAdd_eq (a b : ℚ) : qAdd a b = a + b := by
  rw [Rat.add_def']; rfl

/-- The computable `qMul` agrees with Mathlib's multiplication on `ℚ`. -/
theorem qMul_eq (a b : ℚ) : qMul a b = a * b := by
  rw [Rat.mul_def]; simp [qMul, Rat.normalize_eq_mkRat]

/-- The computable `qSub` agrees with Mathlib's subtraction on `ℚ`. -/
theorem qSub_eq (a b : ℚ) : qSub a b = a - b := by
  rw [sub_eq_add_neg, ← qAdd_eq]; rfl

/-- The Boolean `qLe` decides Mathlib's `≤` on `ℚ`. -/
theorem qLe_iff (a b : ℚ) : qLe a b = true ↔ a ≤ b := by
  simp [qLe]

/-- The Boolean `qLt` decides Mathlib's `<` on `ℚ`. -/
theorem qLt_iff (a b : ℚ) : qLt a b = true ↔ a < b := by
  simp [qLt]

/-- The per-team scores do not depend on the `random.uniform(1, 3)` draw:
every team's `last_world_cup` label matches one of the deterministic form
branches, so the `else` branch drawing from the generator is dead for the
shipped `WORLD_CUP_TEAMS` table. -/
theorem scoredTeams_indep (u : ℚ) : scoredTeams u = scoredTeams 0 := by
  simp only [scoredTeams]
  apply List.map_congr_left
  intro a ha
  fin_cases ha <;> rfl

/-- The formatted advanced team predictions do not depend on the
`random.uniform(1, 3)` draw. -/
theorem calcAdvancedFormatted_indep (u : ℚ) :
    calcAdvancedFormatted u = calcAdvancedFormatted 0 := by
  simp only [calcAdvancedFormatted]
  rw [scoredTeams_indep]

/-! ## Claims -/

/-- C1: the claim says `execute(plan, goal)` returns a `status="error"` dict
and logs the failing step whenever a step operation raises.  In the code as
shipped this is unreachable: `execute` calls `self.memory.start_workflow`
(and, in its handler, `self.memory.log_step` / `self.memory.get_state`),
but `class Memory` defines none of those names — it defines
`initialize_workflow` / `update_step` / `get_current_state` instead — so
every call of `execute`, whatever the plan, goal, or step behaviour, raises
`AttributeError` before any step runs, and the error dict is never
returned. -/
theorem c1_execute_always_raises_attribute_error :
    (∀ (stepOp : String → Except String (String × Option JVal)) (maxSteps : ℕ)
        (plan : List String) (goal : String),
        executeModel stepOp maxSteps plan goal =
          .error (.attributeError "Memory" "start_workflow"))
    ∧ "start_workflow" ∉ memoryMethods
    ∧ "log_step" ∉ memoryMethods
    ∧ "get_state" ∉ memoryMethods :=
  ⟨fun _ _ _ _ => rfl, by decide, by decide, by decide⟩

/-- C9: for every goal and every positive step cap, the generated plan has
between 1 and `max_steps` entries (the five templates have 8–9 steps and
are truncated with `steps[:max_steps]`), and the plan is a function of the
goal text alone — the embedding of `plan` needed no generator or
environment input, so equal goal text gives an identical plan. -/
theorem c9_plan_bounded_and_deterministic (maxSteps : ℕ) (goal : String)
    (h : 1 ≤ maxSteps) :
    (1 ≤ (planModel maxSteps goal).length ∧ (planModel maxSteps goal).length ≤ maxSteps)
    ∧ ∀ goal2 : String, goal2 = goal → planModel maxSteps goal2 = planModel maxSteps goal := by
  constructor
  · have hl := planSteps_length goal
    simp only [planModel, List.length_take]
    constructor
    · rcases hl with hl | hl <;> rw [hl] <;> omega
    · omega
  · intro g2 hg
    rw [hg]

/-- Witness for C9 at the team-winner goal and the default `max_steps = 10`. -/
theorem c9_witness :
    1 ≤ 10
    ∧ ((1 ≤ (planModel 10 "Who will win the World Cup 2026?").length
          ∧ (planModel 10 "Who will win the World Cup 2026?").length ≤ 10)
       ∧ ∀ goal2 : String, goal2 = "Who will win the World Cup 2026?" →
           planModel 10 goal2 = planModel 10 "Who will win the World Cup 2026?") :=
  ⟨by decide, c9_plan_bounded_and_deterministic 10 "Who will win the World Cup 2026?" (by decide)⟩

/-- C10: `fetch_fifa_rankings` returns exactly the 20 teams of
`WORLD_CUP_TEAMS`, with `rank` equal to each team's 1-based position in the
table's insertion order — and that order is not sorted by FIFA points
(e.g. Italy, 1731 points, sits behind Belgium, 1684). -/
theorem c10_fetch_fifa_rankings_is_insertion_order :
    fetch_fifa_rankings_data.length = 20
    ∧ fetch_fifa_rankings_data.map (fun e => e.rank) = (List.range 20).map (fun i => i + 1)
    ∧ fetch_fifa_rankings_data.map (fun e => e.team) = WORLD_CUP_TEAMS.map (fun t => t.name)
    ∧ fetch_fifa_rankings_data.map (fun e => e.points) = WORLD_CUP_TEAMS.map (fun t => t.fifa_points)
    ∧ sortedDescBool (fetch_fifa_rankings_data.map (fun e => e.points)) = false :=
  ⟨by decide, by decide, by decide, by decide, by decide⟩

/-- C2 counterexample: the team-prediction operation's output for the
shipped team table has ten entries and none of them carries a
`probability` field at all — the claimed normalized probabilities (summing
to 100 over a top-5) do not exist in the code, which emits a raw `score`
and a `confidence` label for a top-10 instead. -/
theorem c2_counterexample_no_probability_field :
    (calcAdvancedFormatted 0).length = 10
    ∧ (calcAdvancedFormatted 0).all (fun p => (p.2.lookup "probability").isNone) = true :=
  ⟨by decide, by decide⟩

/-- C2 amended: for every generator draw, `calculate_predictions` /
`calculate_advanced_predictions` report a top-10 keyed `"1"`..`"10"` whose
entries each carry a strictly positive numeric `score` and a `confidence`
label, and no `probability` field; no normalization to 100 is performed. -/
theorem c2_amended_top10_positive_scores_no_probability (u : ℚ) :
    (calcAdvancedFormatted u).map Prod.fst =
      ["1", "2", "3", "4", "5", "6", "7", "8", "9", "10"]
    ∧ (calcAdvancedFormatted u).all
        (fun p => (p.2.lookup "probability").isNone
          && entryScorePos p.2
          && (p.2.lookup "confidence").isSome) = true := by
  rw [calcAdvancedFormatted_indep u]
  exact ⟨by decide, by decide⟩

/-- C3 counterexample: the player-stats fetch is not deterministic — its
output depends on the state of the (unseeded, global) random generator:
two generator states both reachable by `random.randint` produce different
player tables (already the first player's `goals` differ). -/
theorem c3_counterexample_player_stats_random :
    getAllPlayers rngZero ≠ getAllPlayers rngOne := by decide

/-- C3 amended: the team-scoring operation is deterministic — its output is
independent of the generator draw, because every team's `last_world_cup`
label hits a deterministic branch of the form step function — but the
player-stats fetch (`_get_all_players`) is randomized, so the pipeline as a
whole is not deterministic. -/
theorem c3_amended_team_scoring_deterministic (u v : ℚ) :
    calcAdvancedFormatted u = calcAdvancedFormatted v := by
  rw [calcAdvancedFormatted_indep u, calcAdvancedFormatted_indep v]

/-- C4 counterexample: with no candidate players and award `golden_boot`
the scoring operation returns an empty top-5 — no built-in fallback roster
exists in `calculate_player_scores` (and `tools.py` defines no
`calculate_player_predictions` at all). -/
theorem c4_counterexample_empty_input_empty_result :
    (calculate_player_scores [] "golden_boot").data = []
    ∧ (calculate_player_scores [] "golden_boot").formatted = [] :=
  ⟨rfl, rfl⟩

/-- C4 amended: for every award type, `calculate_player_scores` scores
exactly the players supplied and returns `min 5 n` entries — in particular
the result is empty iff the input is empty; no fallback roster is ever
substituted. -/
theorem c4_amended_no_fallback_roster (players : List PlayerRec) (award : String) :
    (calculate_player_scores players award).data.length = min 5 players.length
    ∧ ((calculate_player_scores players award).data = [] ↔ players = []) := by
  have hlen : (calculate_player_scores players award).data.length = min 5 players.length := by
    simp [calculate_player_scores, List.length_take, length_sortDesc]
  refine ⟨hlen, ?_, ?_⟩
  · intro h
    have h0 := congrArg List.length h
    rw [hlen] at h0
    simp only [List.length_nil] at h0
    have hz : players.length = 0 := by omega
    exact List.length_eq_zero.mp hz
  · intro h
    subst h
    rfl

/-- C5 counterexample: for an 18-year-old with rating 80, 10 goals and 10
assists, the code's young-player score is 45 — `rating×0.5 + goals×0.3 +
assists×0.2` with no age bonus — while the claimed formula
`max(0, (22−age)×3) + rating×0.4 + goals×0.3 + assists×0.2` gives 49. -/
theorem c5_counterexample_young_score_formula :
    ((calculate_player_scores [c5Player] "young_player").data.map fun s => s.score) = [45]
    ∧ specYoungPlayerScore c5Player = 49
    ∧ (45 : ℚ) ≠ 49 :=
  ⟨by decide, by decide, by decide⟩

/-- C5 amended: every entry the young-player award scoring returns carries
the score `round(rating×0.5 + goals×0.3 + assists×0.2, 2)` of one of the
supplied players (defaults `rating=80`, `goals=0`, `assists=0`); the
code's formula has coefficient 0.5 on rating, not 0.4, and no age bonus. -/
theorem c5_amended_young_score (players : List PlayerRec) (s : ScoredPlayer)
    (hs : s ∈ (calculate_player_scores players "young_player").data) :
    ∃ p ∈ players,
      s.score = pyRound2 (p.rating.getD 80 * 0.5 + p.goals.getD 0 * 0.3
        + p.assists.getD 0 * 0.2) := by
  have h1 := List.take_subset 5 _ hs
  rw [mem_sortDesc] at h1
  rcases List.mem_map.mp h1 with ⟨p, hp, he⟩
  refine ⟨p, hp, ?_⟩
  rw [← he]
  show pyRound2 (playerAwardScore "young_player" p) = _
  have hform : playerAwardScore "young_player" p
      = p.rating.getD 80 * 0.5 + p.goals.getD 0 * 0.3 + p.assists.getD 0 * 0.2 := by
    show qAdd (qAdd (qMul (p.rating.getD 80) (mkRat 5 10)) (qMul (p.goals.getD 0) (mkRat 3 10)))
        (qMul (p.assists.getD 0) (mkRat 2 10)) = _
    rw [qAdd_eq, qAdd_eq, qMul_eq, qMul_eq, qMul_eq]
    norm_num [Rat.mkRat_eq_div]
  rw [hform]

/-- Witness for the amended C5 theorem at a concrete player list. -/
theorem c5_amended_witness :
    (⟨"Prospect", 45, "Unknown", "Unknown", ""⟩ : ScoredPlayer) ∈
        (calculate_player_scores [c5Player] "young_player").data
    ∧ ∃ p ∈ [c5Player],
        (⟨"Prospect", 45, "Unknown", "Unknown", ""⟩ : ScoredPlayer).score =
          pyRound2 (p.rating.getD 80 * 0.5 + p.goals.getD 0 * 0.3
            + p.assists.getD 0 * 0.2) :=
  ⟨by decide, c5_amended_young_score [c5Player] _ (by decide)⟩

/-! ## Cache lemmas (wikipedia.py) -/

/-- Running `_cached_get` on a missing or unparseable cache file runs the fetch
path (the `except (json.JSONDecodeError, KeyError)` treats unparseable
files as misses). -/
theorem cached_get_miss_eval (c : CacheFile) (hc : c = .missing ∨ c = .invalid)
    (now : ℚ) (hr : Bool) (fo : Option JVal) :
    cached_get c now hr fo = .ok (fetchPath hr fo) := by
  rcases hc with rfl | rfl <;> rfl

/-- Running `_cached_get` on a well-formed `{_ts, data}` cache file: the cached
payload when fresh, the fetch path when expired. -/
theorem cached_get_valid_eval (t : ℚ) (d : JVal) (now : ℚ) (hr : Bool) (fo : Option JVal) :
    cached_get (.valid (.obj [("_ts", .num t), ("data", d)])) now hr fo
      = if qLt now (qAdd t CACHE_TTL_SECONDS) then .ok d else .ok (fetchPath hr fo) := by
  cases hq : qLt now (qAdd t CACHE_TTL_SECONDS) <;>
    simp [cached_get, pyDictGet, tsFresh, List.lookup, hq]

/-- The fallback ranking table is not empty. -/
theorem fifaFallbackRows_ne_nil : fifaFallbackRows ≠ [] := by
  intro h
  have h0 := congrArg List.length h
  simp [fifaFallbackRows, fifaFallbackNames] at h0

/-- The fetch closure's outcome, when it did not raise, is a JSON list. -/
theorem fetchPath_shape (hr : Bool) (fo : Option JVal) (h2 : fetchRows fo) :
    fetchPath hr fo = .null ∨ ∃ rows, fetchPath hr fo = .arr rows := by
  cases hr
  · exact Or.inl rfl
  · cases fo with
    | none => exact Or.inl rfl
    | some w =>
      rcases h2 with ⟨rows, rfl⟩
      exact Or.inr ⟨rows, rfl⟩

/-- Post-processing of `get_fifa_rankings_wiki` when `_cached_get` hands
back `None`: the `or []` and the final guard produce the fallback. -/
theorem getFifa_post_null (cache : CacheFile) (now : ℚ) (hr : Bool) (fo : Option JVal)
    (hv : cached_get cache now hr fo = .ok .null) :
    get_fifa_rankings_wiki cache now hr fo = .ok FIFA_RANKING_FALLBACK := by
  simp [get_fifa_rankings_wiki, hv, pyTruthy]

/-- Post-processing of `get_fifa_rankings_wiki` when `_cached_get` hands
back a list: the list itself when non-empty, else the fallback. -/
theorem getFifa_post_arr (cache : CacheFile) (now : ℚ) (hr : Bool) (fo : Option JVal)
    (rows : List JVal) (hv : cached_get cache now hr fo = .ok (.arr rows)) :
    get_fifa_rankings_wiki cache now hr fo =
      .ok (if rows.isEmpty then FIFA_RANKING_FALLBACK else .arr rows) := by
  cases rows with
  | nil => simp [get_fifa_rankings_wiki, hv, pyTruthy]
  | cons r rs => simp [get_fifa_rankings_wiki, hv, pyTruthy]

/-- C6 counterexample: a well-formed, fresh `{_ts, data}` cache file whose
payload is a JSON object makes `get_fifa_rankings_wiki` return that object
as-is — the accessor's result is not always a (non-empty) list. -/
theorem c6_counterexample_cached_dict_returned :
    get_fifa_rankings_wiki c6Cache 0 true none = .ok (.obj [("cached", .num 1)])
    ∧ jIsList (.obj [("cached", .num 1)]) = false :=
  ⟨rfl, rfl⟩

/-- C6 amended: when the cache file is absent, unparseable, or of the
`{_ts: number, data: list}` shape the accessor itself writes (and the
fetch outcome is a list or a failure, as the fetch closure guarantees),
`get_fifa_rankings_wiki` never raises and returns a non-empty list; in
particular a miss whose fetch fails, cannot run (`requests` missing), or
parses empty yields exactly the static fallback table. -/
theorem c6_amended_nonempty_list (cache : CacheFile) (now : ℚ) (hr : Bool)
    (fo : Option JVal) (h1 : cacheWritten cache) (h2 : fetchRows fo) :
    (∃ rows, get_fifa_rankings_wiki cache now hr fo = .ok (.arr rows) ∧ rows ≠ [])
    ∧ ((cache = .missing ∨ cache = .invalid) →
        (hr = false ∨ fo = none ∨ fo = some (.arr [])) →
        get_fifa_rankings_wiki cache now hr fo = .ok FIFA_RANKING_FALLBACK) := by
  constructor
  · have hshape : ∃ v, cached_get cache now hr fo = .ok v
        ∧ (v = .null ∨ ∃ rows, v = .arr rows) := by
      match cache, h1 with
      | .missing, _ =>
        exact ⟨fetchPath hr fo, cached_get_miss_eval _ (Or.inl rfl) _ _ _,
          fetchPath_shape hr fo h2⟩
      | .invalid, _ =>
        exact ⟨fetchPath hr fo, cached_get_miss_eval _ (Or.inr rfl) _ _ _,
          fetchPath_shape hr fo h2⟩
      | .valid v0, h1 =>
        obtain ⟨t, rows, rfl⟩ := h1
        rw [cached_get_valid_eval]
        cases hq : qLt now (qAdd t CACHE_TTL_SECONDS)
        · exact ⟨fetchPath hr fo, by simp, fetchPath_shape hr fo h2⟩
        · exact ⟨.arr rows, by simp, Or.inr ⟨rows, rfl⟩⟩
    rcases hshape with ⟨v, hv, rfl | ⟨rows, rfl⟩⟩
    · exact ⟨fifaFallbackRows, getFifa_post_null _ _ _ _ hv, fifaFallbackRows_ne_nil⟩
    · rw [getFifa_post_arr _ _ _ _ rows hv]
      cases rows with
      | nil => exact ⟨fifaFallbackRows, rfl, fifaFallbackRows_ne_nil⟩
      | cons r rs => exact ⟨r :: rs, rfl, by simp⟩
  · intro hc hfail
    have hmiss := cached_get_miss_eval cache hc now hr fo
    rcases hfail with rfl | rfl | rfl
    · exact getFifa_post_null _ _ _ _ (by rw [hmiss]; rfl)
    · have hnull : fetchPath hr (none : Option JVal) = .null := by cases hr <;> rfl
      exact getFifa_post_null _ _ _ _ (by rw [hmiss, hnull])
    · cases hr
      · exact getFifa_post_null _ _ _ _ (by rw [hmiss]; rfl)
      · have := getFifa_post_arr _ _ _ _ [] (by rw [hmiss]; rfl)
        simpa using this

/-- Witness for the amended C6 theorem: no cache file, fetch raised. -/
theorem c6_witness :
    cacheWritten .missing ∧ fetchRows (none : Option JVal)
    ∧ ((∃ rows, get_fifa_rankings_wiki .missing 0 true none = .ok (.arr rows) ∧ rows ≠ [])
       ∧ ((CacheFile.missing = .missing ∨ CacheFile.missing = .invalid) →
           (true = false ∨ (none : Option JVal) = none
             ∨ (none : Option JVal) = some (.arr [])) →
           get_fifa_rankings_wiki .missing 0 true none = .ok FIFA_RANKING_FALLBACK)) :=
  ⟨trivial, trivial, c6_amended_nonempty_list .missing 0 true none trivial trivial⟩

/-- C7 counterexample: a cache file holding valid JSON that is not an
object (here the JSON document `[]`) is read by `_cached_get`, whose
`except` clause catches only `JSONDecodeError` and `KeyError`; the
attribute lookup `data.get` on a list raises `AttributeError`, which
propagates to the caller of the cached accessor. -/
theorem c7_counterexample_corrupt_cache_raises :
    get_fifa_rankings_wiki (.valid (.arr [])) 0 true none =
      .error "AttributeError: object has no attribute get" :=
  rfl

/-- C7 amended: over the cache shapes the system itself produces (absent
file, unparseable file, or a `{_ts: number, data: ...}` object), the entry
is used exactly while `now − ts < CACHE_TTL_SECONDS` (86400 s), an expired
or unparseable entry is a miss — the fetch path runs — and no error is
raised; only a parseable-but-non-object cache file (outside these shapes)
raises, as the counterexample shows. -/
theorem c7_amended_ttl_and_miss (cache : CacheFile) (now : ℚ) (hr : Bool)
    (fo : Option JVal) (h : cacheWritten cache) :
    (∀ t d, cache = .valid (.obj [("_ts", .num t), ("data", d)]) →
      ((now - t < CACHE_TTL_SECONDS → cached_get cache now hr fo = .ok d)
       ∧ (CACHE_TTL_SECONDS ≤ now - t →
           cached_get cache now hr fo = .ok (fetchPath hr fo))))
    ∧ ((cache = .missing ∨ cache = .invalid) →
        cached_get cache now hr fo = .ok (fetchPath hr fo))
    ∧ ∀ e, cached_get cache now hr fo ≠ .error e := by
  refine ⟨?_, ?_, ?_⟩
  · rintro t d rfl
    rw [cached_get_valid_eval]
    constructor
    · intro hlt
      have hq : qLt now (qAdd t CACHE_TTL_SECONDS) = true := by
        rw [qAdd_eq, qLt_iff]
        linarith
      simp [hq]
    · intro hge
      have hq : qLt now (qAdd t CACHE_TTL_SECONDS) = false := by
        rw [qAdd_eq]
        simp only [qLt, decide_eq_false_iff_not]
        intro hcon
        have : now - t < CACHE_TTL_SECONDS := by linarith
        linarith
      simp [hq]
  · intro hc
    exact cached_get_miss_eval cache hc now hr fo
  · intro e
    match cache, h with
    | .missing, _ => rw [cached_get_miss_eval _ (Or.inl rfl) _ _ _]; simp
    | .invalid, _ => rw [cached_get_miss_eval _ (Or.inr rfl) _ _ _]; simp
    | .valid v0, h =>
      obtain ⟨t, rows, rfl⟩ := h
      rw [cached_get_valid_eval]
      split <;> simp

/-- Witness for the amended C7 theorem: an expired well-formed entry. -/
theorem c7_witness :
    cacheWritten (.valid (.obj [("_ts", .num 0), ("data", .arr [.num 1])]))
    ∧ ((∀ t d, CacheFile.valid (.obj [("_ts", .num 0), ("data", .arr [.num 1])])
          = .valid (.obj [("_ts", .num t), ("data", d)]) →
        ((1000000 - t < CACHE_TTL_SECONDS →
            cached_get (.valid (.obj [("_ts", .num 0), ("data", .arr [.num 1])]))
              1000000 true none = .ok d)
         ∧ (CACHE_TTL_SECONDS ≤ 1000000 - t →
            cached_get (.valid (.obj [("_ts", .num 0), ("data", .arr [.num 1])]))
              1000000 true none = .ok (fetchPath true none))))
       ∧ ((CacheFile.valid (.obj [("_ts", .num 0), ("data", .arr [.num 1])]) = .missing
            ∨ CacheFile.valid (.obj [("_ts", .num 0), ("data", .arr [.num 1])]) = .invalid) →
           cached_get (.valid (.obj [("_ts", .num 0), ("data", .arr [.num 1])]))
             1000000 true none = .ok (fetchPath true none))
       ∧ ∀ e, cached_get (.valid (.obj [("_ts", .num 0), ("data", .arr [.num 1])]))
           1000000 true none ≠ .error e) :=
  ⟨⟨0, [.num 1], rfl⟩,
   c7_amended_ttl_and_miss _ 1000000 true none ⟨0, [.num 1], rfl⟩⟩

/-! ## Memory aliasing (memory.py) -/

/-- Writing a key through `dictSet` is observable at that key. -/
theorem lookup_dictSet (d : List (String × JVal)) (k : String) (v : JVal) :
    (dictSet d k v).lookup k = some v := by
  induction d with
  | nil => simp [dictSet, List.lookup]
  | cons kv rest ih =>
    obtain ⟨k0, v0⟩ := kv
    by_cases hk : k0 = k
    · subst hk
      simp [dictSet, List.lookup]
    · have hk2 : (k == k0) = false := beq_eq_false_iff_ne.mpr fun e => hk e.symm
      simp [dictSet, List.lookup, hk, hk2, ih]

/-- Reading back an address just overwritten. -/
theorem heapGet_heapSet (h : Heap) (r : ℕ) (d : List (String × JVal)) :
    heapGet (heapSet h r d) r = d := by
  simp [heapGet, heapSet, List.lookup]

/-- C8 counterexample: `get_current_state()` returns the live record.  On a
fresh (idle) record, writing `workflow_status` through the dict that
`get_current_state()` returned changes what a subsequent
`get_current_state()` observes — whereas performing the same write through
the spec's copying accessor leaves the engine's record at `"idle"`. -/
theorem c8_counterexample_live_reference :
    (heapGet initialHeap (getCurrentState theMemory)).lookup "workflow_status"
        = some (.str "idle")
    ∧ (heapGet (heapSet initialHeap (getCurrentState theMemory)
          (dictSet (heapGet initialHeap (getCurrentState theMemory))
            "workflow_status" (.str "mutated")))
        (getCurrentState theMemory)).lookup "workflow_status" = some (.str "mutated")
    ∧ (let pr := getStateSpecCopy initialHeap theMemory
       (heapGet (heapSet pr.2 pr.1
           (dictSet (heapGet pr.2 pr.1) "workflow_status" (.str "mutated")))
         theMemory.memoryRef).lookup "workflow_status" = some (.str "idle")) :=
  ⟨rfl, rfl, rfl⟩

/-- C8 amended: `get_current_state` returns `self.memory` itself — the same
reference the engine holds — so for every heap, record, key and value, a
write through the returned reference is visible when the internal record is
read again. -/
theorem c8_amended_returns_live_reference (h : Heap) (m : MemoryObj)
    (k : String) (v : JVal) :
    getCurrentState m = m.memoryRef
    ∧ (heapGet (heapSet h (getCurrentState m)
        (dictSet (heapGet h (getCurrentState m)) k v)) m.memoryRef).lookup k = some v := by
  refine ⟨rfl, ?_⟩
  show (heapGet (heapSet h m.memoryRef
    (dictSet (heapGet h m.memoryRef) k v)) m.memoryRef).lookup k = some v
  rw [heapGet_heapSet, lookup_dictSet]

end WorldCup
